import Mathlib

/-!
Shallow embedding of `src/test-server.py`, a sequential HTTP probe runner.

The script iterates a fixed list of URLs, issues `requests.get(url, timeout=5)`
for each, prints the status code, the response headers and the first 200
characters of the body, and classifies failures by Python exception dispatch:
`requests.exceptions.ConnectionError` first, then `requests.exceptions.Timeout`,
then any `Exception`.  The network is modelled as an environment function from
URL and timeout to a raw outcome; a Python exception is modelled by the three
class-hierarchy facts the dispatch inspects.
-/

namespace TestServer

/-- A raw HTTP response as surfaced by the `requests` library: status code,
headers, and the decoded body text. -/
structure HttpResponse where
  status_code : Nat
  headers : List (String × String)
  text : String
deriving DecidableEq

/-- An exception raised by `requests.get`, described by the membership facts
that the script's `except` clauses test: whether it derives from
`requests.exceptions.ConnectionError`, from `requests.exceptions.Timeout`,
and from Python's `Exception` (as opposed to only `BaseException`), plus its
message text. -/
structure PyException where
  isConnectionError : Bool
  isTimeout : Bool
  isExceptionDerived : Bool
  message : String
deriving DecidableEq

/-- The outcome of one `requests.get` call: a response, or a raised exception. -/
inductive GetOutcome where
  | resp (r : HttpResponse)
  | exc (e : PyException)
deriving DecidableEq

/-- The classified result of one probe, the tagged form of what the script
prints for one target. -/
inductive ProbeResult where
  | success (status_code : Nat) (headers : List (String × String)) (body_preview : Option String)
  | connectionRefused
  | timeout
  | otherError (message : String)
deriving DecidableEq

/-- The fixed target list `urls_to_test` from the script. -/
def urls_to_test : List String :=
  ["http://localhost:3000",
   "http://localhost:3000/ping",
   "http://localhost:3000/api/health",
   "http://localhost:3001",
   "http://localhost:3001/ping"]

/-- The per-request timeout passed to every `requests.get` call: `timeout=5`. -/
def requestTimeout : Nat := 5

/-- Python string slicing `s[:n]`: the first `n` characters (code points). -/
def pySlice (s : String) (n : Nat) : String := String.mk (s.data.take n)

/-- The body of the script's `try/except`: given the outcome of
`requests.get`, produce the classified probe result, or propagate the
exception when no handler matches.  The handlers are tried in source order:
`ConnectionError`, then `Timeout`, then `Exception`. -/
def classify (o : GetOutcome) : Except PyException ProbeResult :=
  match o with
  | .resp r =>
      .ok (.success r.status_code r.headers
            (if r.text = "" then none else some (pySlice r.text 200)))
  | .exc e =>
      if e.isConnectionError then .ok .connectionRefused
      else if e.isTimeout then .ok .timeout
      else if e.isExceptionDerived then .ok (.otherError e.message)
      else .error e

/-- Rendering of `dict(response.headers)` as Python prints a dict literal. -/
def renderHeaders (hs : List (String × String)) : String :=
  "\x7b" ++
    String.intercalate (", ")
      (hs.map (fun p => "\x27" ++ p.1 ++ "\x27: \x27" ++ p.2 ++ "\x27")) ++
  "\x7d"

/-- The lines the script prints for one target: the `Testing` line, then on a
response the status, headers, the content preview when the body is non-empty
and a blank line from `print()` inside the `try`, or on a caught exception the
matching marker line; finally the blank line from the `print()` after the
`try/except`. -/
def render_entry (url : String) (pr : ProbeResult) : List String :=
  ("Testing " ++ url ++ "...") ::
  match pr with
  | .success sc hs bp =>
      ["  Status: " ++ toString sc, "  Headers: " ++ renderHeaders hs]
      ++ (match bp with
          | some p => ["  Content (first 200 chars): " ++ p]
          | none => [])
      ++ ["", ""]
  | .connectionRefused => ["  ❌ Connection refused", ""]
  | .timeout => ["  ⏰ Timeout", ""]
  | .otherError m => ["  ❌ Error: " ++ m, ""]

/-- Whether an outcome is handled by the loop body without propagating: a
response, or an exception caught by one of the three `except` clauses. -/
def handled (o : GetOutcome) : Bool :=
  match o with
  | .resp _ => true
  | .exc e => e.isConnectionError || e.isTimeout || e.isExceptionDerived

/-- The `for url in urls_to_test` loop, collecting one classified result per
target in iteration order.  The second component is the uncaught exception,
`none` when the loop ran to completion; an uncaught exception aborts the
iteration, so no further target is attempted. -/
def run_results (net : String → Nat → GetOutcome) : List String → List ProbeResult × Option PyException
  | [] => ([], none)
  | url :: rest =>
    match classify (net url requestTimeout) with
    | .error e => ([], some e)
    | .ok pr => (pr :: (run_results net rest).1, (run_results net rest).2)

/-- The same loop, collecting the printed lines.  On an uncaught exception only
the `Testing` line of the aborting target was printed before propagation. -/
def run_output (net : String → Nat → GetOutcome) : List String → List String × Option PyException
  | [] => ([], none)
  | url :: rest =>
    match classify (net url requestTimeout) with
    | .error e => (["Testing " ++ url ++ "..."], some e)
    | .ok pr => (render_entry url pr ++ (run_output net rest).1, (run_output net rest).2)

/-- `test_server()` run against a network environment: the classified results
in order, and the uncaught exception if one escaped. -/
def test_server (net : String → Nat → GetOutcome) : List ProbeResult × Option PyException :=
  run_results net urls_to_test

/-- The standard-output lines of a run of `test_server()`. -/
def test_server_output (net : String → Nat → GetOutcome) : List String × Option PyException :=
  run_output net urls_to_test

/-- The process exit status: a normal return from `test_server()` exits 0; an
exception escaping `test_server()` makes the interpreter exit non-zero. -/
def exit_code (net : String → Nat → GetOutcome) : Nat :=
  match (test_server net).2 with
  | none => 0
  | some _ => 1

/-- The value of a classification when no exception propagated. -/
def okValue? : Except PyException ProbeResult → Option ProbeResult
  | .ok pr => some pr
  | .error _ => none

/-- A handled outcome classifies to some probe result. -/
theorem classify_handled (o : GetOutcome) (h : handled o = true) :
    ∃ pr, classify o = Except.ok pr := by
  cases o with
  | resp r => exact ⟨_, rfl⟩
  | exc e =>
    rcases hc : e.isConnectionError with _ | _ <;>
    rcases ht : e.isTimeout with _ | _ <;>
    rcases hd : e.isExceptionDerived with _ | _ <;>
    simp_all [handled, classify]

/-- When every target's outcome is handled, the loop completes, yields one
result per target, and the result at each index is the classification of that
target's outcome. -/
theorem run_results_all_handled (net : String → Nat → GetOutcome) (us : List String)
    (h : ∀ u ∈ us, handled (net u requestTimeout) = true) :
    (run_results net us).2 = none ∧
    (run_results net us).1.length = us.length ∧
    ∀ i (hi : i < us.length),
      (run_results net us).1[i]? =
        okValue? (classify (net (us.get ⟨i, hi⟩) requestTimeout)) := by
  induction us with
  | nil => exact ⟨rfl, rfl, fun i hi => absurd hi (Nat.not_lt_zero i)⟩
  | cons u rest ih =>
    obtain ⟨pr, hpr⟩ := classify_handled _ (h u (List.mem_cons_self u rest))
    obtain ⟨ih1, ih2, ih3⟩ := ih (fun v hv => h v (List.mem_cons_of_mem u hv))
    refine ⟨?_, ?_, ?_⟩
    · simp [run_results, hpr, ih1]
    · simp [run_results, hpr, ih2]
    · intro i hi
      cases i with
      | zero => simp [run_results, hpr, okValue?]
      | succ j =>
        have hj : j < rest.length := by simpa using hi
        have := ih3 j hj
        simpa [run_results, hpr] using this

/-- When every target's outcome is handled, the printed output is the
concatenation, in input order, of the per-target entries. -/
theorem run_output_all_handled (net : String → Nat → GetOutcome) (us : List String)
    (h : ∀ u ∈ us, handled (net u requestTimeout) = true) :
    (run_output net us).2 = none ∧
    (run_output net us).1 =
      (List.map (fun p => render_entry p.1 p.2) (us.zip (run_results net us).1)).flatten := by
  induction us with
  | nil => exact ⟨rfl, rfl⟩
  | cons u rest ih =>
    obtain ⟨pr, hpr⟩ := classify_handled _ (h u (List.mem_cons_self u rest))
    obtain ⟨ih1, ih2⟩ := ih (fun v hv => h v (List.mem_cons_of_mem u hv))
    constructor
    · simp [run_output, hpr, ih1]
    · simp [run_output, run_results, hpr, ih2]

/-- When an unhandled exception arises at some target, the loop stops there:
the exception propagates, the targets before it each produced their result,
and no later target is attempted. -/
theorem run_results_aborts (net : String → Nat → GetOutcome) (pre post : List String)
    (url : String) (e : PyException)
    (hpre : ∀ u ∈ pre, handled (net u requestTimeout) = true)
    (hexc : classify (net url requestTimeout) = Except.error e) :
    (run_results net (pre ++ url :: post)).2 = some e ∧
    (run_results net (pre ++ url :: post)).1.length = pre.length := by
  induction pre with
  | nil => simp [run_results, hexc]
  | cons u rest ih =>
    obtain ⟨pr, hpr⟩ := classify_handled _ (hpre u (List.mem_cons_self u rest))
    obtain ⟨ih1, ih2⟩ := ih (fun v hv => hpre v (List.mem_cons_of_mem u hv))
    constructor
    · simpa [run_results, hpr] using ih1
    · simpa [run_results, hpr] using ih2

/-- Claim C1: over the configured target sequence, a run whose every outcome
is handled produces exactly one ProbeResult per target, in input order (the
result at index `i` is the classification of target `i`), and the emitted
output is the in-order concatenation of the per-target entries, each entry
preceding the next target's entry. -/
theorem probe_run_one_result_per_target_in_order (net : String → Nat → GetOutcome)
    (h : ∀ u ∈ urls_to_test, handled (net u requestTimeout) = true) :
    (test_server net).2 = none ∧
    (test_server net).1.length = urls_to_test.length ∧
    (∀ i (hi : i < urls_to_test.length),
      (test_server net).1[i]? =
        okValue? (classify (net (urls_to_test.get ⟨i, hi⟩) requestTimeout))) ∧
    (test_server_output net).1 =
      (List.map (fun p => render_entry p.1 p.2) (urls_to_test.zip (test_server net).1)).flatten := by
  obtain ⟨h1, h2, h3⟩ := run_results_all_handled net urls_to_test h
  obtain ⟨_, h5⟩ := run_output_all_handled net urls_to_test h
  exact ⟨h1, h2, h3, h5⟩

/-- Concrete run instantiating C1: every target answers 200 `pong`. -/
theorem probe_run_one_result_per_target_in_order_witness :
    (∀ u ∈ urls_to_test,
      handled ((fun _ _ => GetOutcome.resp ⟨200, [], "pong"⟩) u requestTimeout) = true) ∧
    ((test_server (fun _ _ => GetOutcome.resp ⟨200, [], "pong"⟩)).2 = none ∧
     (test_server (fun _ _ => GetOutcome.resp ⟨200, [], "pong"⟩)).1.length = urls_to_test.length ∧
     (∀ i (hi : i < urls_to_test.length),
       (test_server (fun _ _ => GetOutcome.resp ⟨200, [], "pong"⟩)).1[i]? =
         okValue? (classify ((fun _ _ => GetOutcome.resp ⟨200, [], "pong"⟩)
           (urls_to_test.get ⟨i, hi⟩) requestTimeout))) ∧
     (test_server_output (fun _ _ => GetOutcome.resp ⟨200, [], "pong"⟩)).1 =
       (List.map (fun p => render_entry p.1 p.2)
         (urls_to_test.zip (test_server (fun _ _ => GetOutcome.resp ⟨200, [], "pong"⟩)).1)).flatten) :=
  ⟨by decide, probe_run_one_result_per_target_in_order _ (by decide)⟩

/-- Claim C2: an exception deriving from ConnectionError is classified as
ConnectionRefused — the refused marker line is what the entry prints — and
not as Timeout or OtherError. -/
theorem connection_refused_classification (e : PyException)
    (h : e.isConnectionError = true) :
    classify (GetOutcome.exc e) = Except.ok ProbeResult.connectionRefused ∧
    classify (GetOutcome.exc e) ≠ Except.ok ProbeResult.timeout ∧
    (∀ m, classify (GetOutcome.exc e) ≠ Except.ok (ProbeResult.otherError m)) ∧
    ∀ url, ("  ❌ Connection refused") ∈ render_entry url ProbeResult.connectionRefused := by
  have h1 : classify (GetOutcome.exc e) = Except.ok ProbeResult.connectionRefused := by
    simp [classify, h]
  exact ⟨h1, by simp [h1], fun m => by simp [h1], fun url => by simp [render_entry]⟩

/-- Concrete instance for C2: a pure ConnectionError. -/
theorem connection_refused_classification_witness :
    (PyException.mk true false true ("")).isConnectionError = true ∧
    classify (GetOutcome.exc ⟨true, false, true, ""⟩) =
      Except.ok ProbeResult.connectionRefused :=
  ⟨rfl, (connection_refused_classification ⟨true, false, true, ""⟩ rfl).1⟩

/-- Claim C3: an exception deriving from Timeout but not from ConnectionError
is classified as Timeout and the timeout marker is printed; the timeout bound
is the constant 5 passed to every request, and the run depends only on each
request's own outcome under that per-request bound, with no cumulative
state across targets. -/
theorem timeout_classification (e : PyException)
    (ht : e.isTimeout = true) (hc : e.isConnectionError = false) :
    classify (GetOutcome.exc e) = Except.ok ProbeResult.timeout ∧
    (∀ url, ("  ⏰ Timeout") ∈ render_entry url ProbeResult.timeout) ∧
    requestTimeout = 5 ∧
    ∀ (netA netB : String → Nat → GetOutcome) (us : List String),
      (∀ u, netA u requestTimeout = netB u requestTimeout) →
      run_results netA us = run_results netB us := by
  refine ⟨by simp [classify, hc, ht], fun url => by simp [render_entry], rfl, ?_⟩
  intro netA netB us hn
  induction us with
  | nil => rfl
  | cons u rest ih => simp [run_results, hn u, ih]

/-- Concrete instance for C3: a pure read timeout. -/
theorem timeout_classification_witness :
    (PyException.mk false true true ("")).isTimeout = true ∧
    (PyException.mk false true true ("")).isConnectionError = false ∧
    classify (GetOutcome.exc ⟨false, true, true, ""⟩) = Except.ok ProbeResult.timeout ∧
    requestTimeout = 5 :=
  ⟨rfl, rfl, (timeout_classification ⟨false, true, true, ""⟩ rfl rfl).1,
    (timeout_classification ⟨false, true, true, ""⟩ rfl rfl).2.2.1⟩

/-- Claim C4: whenever every per-target outcome is handled — any number of
failures of any handled kind — the loop never aborts, every target is
attempted, and the process exits 0. -/
theorem run_always_completes_exit_zero (net : String → Nat → GetOutcome)
    (h : ∀ u ∈ urls_to_test, handled (net u requestTimeout) = true) :
    (test_server net).2 = none ∧
    (test_server net).1.length = urls_to_test.length ∧
    exit_code net = 0 := by
  obtain ⟨h1, h2, _⟩ := run_results_all_handled net urls_to_test h
  refine ⟨h1, h2, ?_⟩
  simp [exit_code, test_server] at h1 ⊢
  simp [h1]

/-- Concrete run instantiating C4: every target fails, with all three failure
kinds occurring. -/
theorem run_always_completes_exit_zero_witness :
    (∀ u ∈ urls_to_test,
      handled ((fun u _ =>
        if u = "http://localhost:3000" then GetOutcome.exc ⟨true, false, true, ""⟩
        else if u = "http://localhost:3000/ping" then GetOutcome.exc ⟨false, true, true, ""⟩
        else GetOutcome.exc ⟨false, false, true, "boom"⟩) u requestTimeout) = true) ∧
    exit_code (fun u _ =>
        if u = "http://localhost:3000" then GetOutcome.exc ⟨true, false, true, ""⟩
        else if u = "http://localhost:3000/ping" then GetOutcome.exc ⟨false, true, true, ""⟩
        else GetOutcome.exc ⟨false, false, true, "boom"⟩) = 0 :=
  ⟨by decide, (run_always_completes_exit_zero _ (by decide)).2.2⟩

/-- Claim C5: a response whose body text exceeds 200 characters yields a
Success whose body_preview is exactly the first 200 characters of the body. -/
theorem long_body_truncated (r : HttpResponse) (h : 200 < r.text.length) :
    classify (GetOutcome.resp r) =
      Except.ok (ProbeResult.success r.status_code r.headers (some (pySlice r.text 200))) ∧
    (pySlice r.text 200).length = 200 := by
  have hne : r.text ≠ "" := by
    intro h0
    rw [h0] at h
    exact absurd h (by decide)
  have hd : r.text.data.length = r.text.length := rfl
  constructor
  · simp [classify, hne]
  · simp only [pySlice, String.length_mk, List.length_take]
    omega

set_option maxRecDepth 4000 in
/-- Concrete instance for C5: a 201-character body is cut to 200. -/
theorem long_body_truncated_witness :
    200 < (String.mk (List.replicate 201 'a')).length ∧
    (pySlice (String.mk (List.replicate 201 'a')) 200).length = 200 :=
  ⟨by decide,
   (long_body_truncated ⟨200, [], String.mk (List.replicate 201 'a')⟩ (by decide)).2⟩

/-- Claim C6: a response with status 200 and body `pong` classifies to a
Success with status_code 200 and body_preview `pong`, and the printed entry
reports the status, the header mapping, and the content preview `pong`. -/
theorem pong_response_success (url : String) (hs : List (String × String)) :
    classify (GetOutcome.resp ⟨200, hs, "pong"⟩) =
      Except.ok (ProbeResult.success 200 hs (some ("pong"))) ∧
    render_entry url (ProbeResult.success 200 hs (some ("pong"))) =
      ["Testing " ++ url ++ "...", "  Status: 200", "  Headers: " ++ renderHeaders hs,
       "  Content (first 200 chars): pong", "", ""] := by
  have h1 : ("pong" : String) ≠ "" := by decide
  have hp : pySlice ("pong") 200 = "pong" := by decide
  have h2 : "  Status: " ++ toString (200 : Nat) = "  Status: 200" := by decide
  have h3 : "  Content (first 200 chars): " ++ "pong" = "  Content (first 200 chars): pong" := by
    decide
  constructor
  · simp [classify, h1, hp]
  · simp [render_entry, h2, h3]

/-- Claim C7: an exception deriving from Exception but neither from
ConnectionError nor from Timeout classifies to OtherError carrying its
message, the error line printed contains that message, the exception is
handled inside the iteration, and a run whose every target raises it
completes over all targets with no exception escaping. -/
theorem other_error_classification (e : PyException)
    (hc : e.isConnectionError = false) (ht : e.isTimeout = false)
    (hd : e.isExceptionDerived = true) :
    classify (GetOutcome.exc e) = Except.ok (ProbeResult.otherError e.message) ∧
    (∀ url, ("  ❌ Error: " ++ e.message) ∈
      render_entry url (ProbeResult.otherError e.message)) ∧
    handled (GetOutcome.exc e) = true ∧
    ∀ (net : String → Nat → GetOutcome) (us : List String),
      (∀ u ∈ us, net u requestTimeout = GetOutcome.exc e) →
      (run_results net us).2 = none ∧ (run_results net us).1.length = us.length := by
  refine ⟨by simp [classify, hc, ht, hd], fun url => by simp [render_entry],
    by simp [handled, hd], ?_⟩
  intro net us hu
  have h := run_results_all_handled net us (fun u hmem => by
    rw [hu u hmem]; simp [handled, hd])
  exact ⟨h.1, h.2.1⟩

/-- Concrete instance for C7: a generic exception with message `boom`. -/
theorem other_error_classification_witness :
    (PyException.mk false false true ("boom")).isConnectionError = false ∧
    (PyException.mk false false true ("boom")).isTimeout = false ∧
    (PyException.mk false false true ("boom")).isExceptionDerived = true ∧
    classify (GetOutcome.exc ⟨false, false, true, "boom"⟩) =
      Except.ok (ProbeResult.otherError ("boom")) :=
  ⟨rfl, rfl, rfl,
   (other_error_classification ⟨false, false, true, "boom"⟩ rfl rfl rfl).1⟩

/-- Claim C8: each handled target's entry starts with the `Testing` line
naming the URL, ends with a blank line, and is either the success lines
(status, headers, the preview line exactly when a preview exists) or exactly
one of the three failure-marker lines. -/
theorem entry_output_format (url : String) (o : GetOutcome) (h : handled o = true) :
    ∃ pr, classify o = Except.ok pr ∧
      (render_entry url pr).head? = some ("Testing " ++ url ++ "...") ∧
      (render_entry url pr).getLast? = some ("") ∧
      ((∃ sc hs bp, pr = ProbeResult.success sc hs bp ∧
          render_entry url pr =
            ["Testing " ++ url ++ "...", "  Status: " ++ toString sc,
             "  Headers: " ++ renderHeaders hs]
            ++ (match bp with
                | some p => ["  Content (first 200 chars): " ++ p]
                | none => [])
            ++ ["", ""]) ∨
       (pr = ProbeResult.connectionRefused ∧
          render_entry url pr =
            ["Testing " ++ url ++ "...", "  ❌ Connection refused", ""]) ∨
       (pr = ProbeResult.timeout ∧
          render_entry url pr = ["Testing " ++ url ++ "...", "  ⏰ Timeout", ""]) ∨
       (∃ m, pr = ProbeResult.otherError m ∧
          render_entry url pr = ["Testing " ++ url ++ "...", "  ❌ Error: " ++ m, ""])) := by
  obtain ⟨pr, hpr⟩ := classify_handled o h
  refine ⟨pr, hpr, ?_⟩
  cases pr with
  | success sc hs bp =>
    cases bp with
    | none => exact ⟨rfl, rfl, Or.inl ⟨sc, hs, none, rfl, rfl⟩⟩
    | some p => exact ⟨rfl, rfl, Or.inl ⟨sc, hs, some p, rfl, rfl⟩⟩
  | connectionRefused => exact ⟨rfl, rfl, Or.inr (Or.inl ⟨rfl, rfl⟩)⟩
  | timeout => exact ⟨rfl, rfl, Or.inr (Or.inr (Or.inl ⟨rfl, rfl⟩))⟩
  | otherError m => exact ⟨rfl, rfl, Or.inr (Or.inr (Or.inr ⟨m, rfl, rfl⟩))⟩

/-- Concrete instance for C8: a refused connection's entry ends in a blank
line. -/
theorem entry_output_format_witness :
    handled (GetOutcome.exc ⟨true, false, true, ""⟩) = true ∧
    ∃ pr, classify (GetOutcome.exc ⟨true, false, true, ""⟩) = Except.ok pr ∧
      (render_entry ("u") pr).getLast? = some ("") :=
  ⟨rfl, (entry_output_format ("u") (GetOutcome.exc ⟨true, false, true, ""⟩) rfl).imp
    (fun _pr hp => ⟨hp.1, hp.2.2.1⟩)⟩

/-- Claim C9: an exception deriving from both ConnectionError and Timeout —
a connect timeout — is classified as ConnectionRefused, not Timeout, because
the ConnectionError handler precedes the Timeout handler. -/
theorem connect_timeout_classified_refused (e : PyException)
    (hc : e.isConnectionError = true) (ht : e.isTimeout = true) :
    classify (GetOutcome.exc e) = Except.ok ProbeResult.connectionRefused ∧
    classify (GetOutcome.exc e) ≠ Except.ok ProbeResult.timeout := by
  have h1 : classify (GetOutcome.exc e) = Except.ok ProbeResult.connectionRefused := by
    simp [classify, hc]
  exact ⟨h1, by simp [h1]⟩

/-- Concrete instance for C9: an exception in both classes. -/
theorem connect_timeout_classified_refused_witness :
    (PyException.mk true true true ("")).isConnectionError = true ∧
    (PyException.mk true true true ("")).isTimeout = true ∧
    classify (GetOutcome.exc ⟨true, true, true, ""⟩) =
      Except.ok ProbeResult.connectionRefused :=
  ⟨rfl, rfl, (connect_timeout_classified_refused ⟨true, true, true, ""⟩ rfl rfl).1⟩

/-- Claim C10: an exception deriving from BaseException but not Exception is
caught by no handler: it propagates out of the loop, the targets after it are
never attempted, and the process exit status is non-zero. -/
theorem base_exception_aborts_run (net : String → Nat → GetOutcome)
    (pre post : List String) (url : String) (e : PyException)
    (hsplit : urls_to_test = pre ++ url :: post)
    (hpre : ∀ u ∈ pre, handled (net u requestTimeout) = true)
    (hexc : net url requestTimeout = GetOutcome.exc e)
    (hc : e.isConnectionError = false) (ht : e.isTimeout = false)
    (hd : e.isExceptionDerived = false) :
    (test_server net).2 = some e ∧
    (test_server net).1.length = pre.length ∧
    exit_code net ≠ 0 := by
  have hcl : classify (net url requestTimeout) = Except.error e := by
    rw [hexc]
    simp [classify, hc, ht, hd]
  have h := run_results_aborts net pre post url e hpre hcl
  have h1 : (test_server net).2 = some e := by
    show (run_results net urls_to_test).2 = some e
    rw [hsplit]
    exact h.1
  have h2 : (test_server net).1.length = pre.length := by
    show (run_results net urls_to_test).1.length = pre.length
    rw [hsplit]
    exact h.2
  exact ⟨h1, h2, by simp [exit_code, h1]⟩

/-- Concrete run instantiating C10: the first target raises a
KeyboardInterrupt-like exception; no result is produced and the exit status
is non-zero. -/
theorem base_exception_aborts_run_witness :
    (test_server (fun _ _ => GetOutcome.exc ⟨false, false, false, "KeyboardInterrupt"⟩)).2 =
      some ⟨false, false, false, "KeyboardInterrupt"⟩ ∧
    (test_server (fun _ _ => GetOutcome.exc ⟨false, false, false, "KeyboardInterrupt"⟩)).1.length = 0 ∧
    exit_code (fun _ _ => GetOutcome.exc ⟨false, false, false, "KeyboardInterrupt"⟩) ≠ 0 := by
  have h10 := base_exception_aborts_run
    (fun _ _ => GetOutcome.exc ⟨false, false, false, "KeyboardInterrupt"⟩)
    [] ["http://localhost:3000/ping", "http://localhost:3000/api/health",
        "http://localhost:3001", "http://localhost:3001/ping"]
    ("http://localhost:3000") ⟨false, false, false, "KeyboardInterrupt"⟩
    rfl (by simp) rfl rfl rfl rfl
  exact ⟨h10.1, h10.2.1, h10.2.2⟩

end TestServer
